import Mathlib
set_option maxRecDepth 4000

/- Formal model of the DefenSys anomaly-scoring pipeline, embedded from
src/app.py.  The function detect_fraud (lines 27-34) selects the numeric
columns of a pandas DataFrame, fits an unseeded sklearn
IsolationForest(contamination=0.1) on them, and annotates the frame in
place with three columns:

  df["Risk Score"] = np.round(model.decision_function(df_numeric) * -100, 2)
  df["Severity"]   = pd.cut(df["Risk Score"], [-1, 30, 60, 9999],
                            labels=["Low", "Medium", "High"])
  df["Status"]     = np.where(preds == -1, "🔴 Suspicious", "🟢 Normal")

The fitted forest itself is third-party library code; it is abstracted by
the vector of score_samples values it returns for the dataset rows (one
rational per row, the argument `scores` below, or the function `M` at the
frame level).  Everything downstream of the fit is deterministic,
documented sklearn behaviour and is embedded exactly:

  offset_            = np.percentile(score_samples(X), 100 * contamination)
                       (linear interpolation; contamination = 0.1 here)
  decision_function  = score_samples - offset_
  fit_predict        = -1 where decision_function < 0, else +1

Rationals stand for the float64 values; the half-to-even rounding of
np.round is modelled exactly on rationals. -/

inductive Severity where
  | Low
  | Medium
  | High
  deriving DecidableEq

/-- Rounding to the nearest integer with ties to even: the rounding mode of np.round. -/
def roundHalfEven (q : ℚ) : ℤ :=
  if q - ⌊q⌋ < 1/2 then ⌊q⌋
  else if 1/2 < q - ⌊q⌋ then ⌊q⌋ + 1
  else if 2 ∣ ⌊q⌋ then ⌊q⌋ else ⌊q⌋ + 1

/-- Model of np.round(x, 2). -/
def round2 (q : ℚ) : ℚ := (roundHalfEven (q * 100) : ℚ) / 100

/-- Model of pd.cut(x, [-1, 30, 60, 9999], labels=["Low", "Medium", "High"]) on one value: bins are right-closed, and a value outside (-1, 9999] gets a null (none) label. -/
def severityCut (r : ℚ) : Option Severity :=
  if -1 < r ∧ r ≤ 30 then some Severity.Low
  else if 30 < r ∧ r ≤ 60 then some Severity.Medium
  else if 60 < r ∧ r ≤ 9999 then some Severity.High
  else none

/-- Ascending sort of the values, as used by np.percentile. -/
def sortAsc (l : List ℚ) : List ℚ := l.insertionSort (fun a b => a ≤ b)

/-- Model of np.percentile(l, 100*p) with the default linear interpolation: position h = p*(n-1) in the ascending sort, interpolated between the two neighbouring order statistics. -/
def percentile (l : List ℚ) (p : ℚ) : ℚ :=
  (sortAsc l).getD (⌊p * ((l.length : ℚ) - 1)⌋).toNat 0 +
    (p * ((l.length : ℚ) - 1) - ⌊p * ((l.length : ℚ) - 1)⌋) *
      ((sortAsc l).getD ((⌊p * ((l.length : ℚ) - 1)⌋).toNat + 1)
          ((sortAsc l).getD (⌊p * ((l.length : ℚ) - 1)⌋).toNat 0) -
        (sortAsc l).getD (⌊p * ((l.length : ℚ) - 1)⌋).toNat 0)

/-- Model of the fitted model's offset_ for contamination = 0.1: sklearn sets offset_ = np.percentile(score_samples(X), 100 * contamination).  `scores` is the score_samples vector of the dataset rows. -/
def offsetOf (scores : List ℚ) : ℚ := percentile scores (1/10)

/-- Decision threshold on the normalized anomaly score: score_samples is the negated anomaly score, so on the anomaly side the threshold is -offset_. -/
def thresholdOf (scores : List ℚ) : ℚ := -offsetOf scores

/-- Normalized anomaly scores of the rows (score_samples negated). -/
def anomalyScores (scores : List ℚ) : List ℚ := scores.map (fun s => -s)

/-- Model of model.decision_function(df_numeric): score_samples - offset_. -/
def decOf (scores : List ℚ) : List ℚ := scores.map (fun s => s - offsetOf scores)

/-- Model of preds = model.fit_predict(df_numeric) (app.py line 30): -1 where the decision function is negative, else +1. -/
def predsOf (scores : List ℚ) : List ℤ :=
  (decOf scores).map (fun d => if d < 0 then -1 else 1)

/-- Row risk scores: np.round(model.decision_function(df_numeric) * -100, 2) (app.py line 31). -/
def riskScores (scores : List ℚ) : List ℚ :=
  (decOf scores).map (fun d => round2 (d * (-100)))

/-- Row severities: pd.cut applied to the Risk Score column (app.py line 32). -/
def severities (scores : List ℚ) : List (Option Severity) :=
  (riskScores scores).map severityCut

/-- Row status labels: np.where(preds == -1, "🔴 Suspicious", "🟢 Normal") (app.py line 33). -/
def statuses (scores : List ℚ) : List String :=
  (predsOf scores).map (fun p => if p = -1 then "🔴 Suspicious" else "🟢 Normal")

/-- Column of a pandas DataFrame: a numeric (float) column, an object (string) column, or the categorical column produced by pd.cut. -/
inductive Col where
  | num (name : String) (vals : List ℚ)
  | str (name : String) (vals : List String)
  | sev (name : String) (vals : List (Option Severity))
  deriving DecidableEq

abbrev DataFrame := List Col

def colName : Col → String
  | Col.num n _ => n
  | Col.str n _ => n
  | Col.sev n _ => n

def colLen : Col → ℕ
  | Col.num _ v => v.length
  | Col.str _ v => v.length
  | Col.sev _ v => v.length

/-- Whether a column is numeric, i.e. kept by df.select_dtypes(include=[np.number]). -/
def isNum : Col → Bool
  | Col.num _ _ => true
  | _ => false

/-- Values of the numeric columns in column order: df.select_dtypes(include=[np.number]) (app.py line 28). -/
def numericVals (df : DataFrame) : List (List ℚ) :=
  df.filterMap (fun c => match c with | Col.num _ v => some v | _ => none)

/-- Row count of the frame (every column shares it in a well-formed frame). -/
def numRows (df : DataFrame) : ℕ := (df.head?.map colLen).getD 0

/-- Rectangularity: every column has the frame's row count. -/
def wellFormed (df : DataFrame) : Prop := ∀ c ∈ df, colLen c = numRows df

/-- Model of the pandas column assignment df[name] = vals: overwrites the column(s) carrying that label in place, else appends a new column on the right. -/
def setCol (df : DataFrame) (c : Col) : DataFrame :=
  if df.any (fun c0 => colName c0 == colName c) then
    df.map (fun c0 => if colName c0 == colName c then c else c0)
  else df ++ [c]

/-- First column with the given label. -/
def getCol (df : DataFrame) (n : String) : Option Col :=
  df.find? (fun c => colName c == n)

/-- Writes of the three annotation columns, in program order (app.py lines 31-33). -/
def annotate (df : DataFrame) (scores : List ℚ) : DataFrame :=
  setCol (setCol (setCol df (Col.num "Risk Score" (riskScores scores)))
      (Col.sev "Severity" (severities scores)))
    (Col.str "Status" (statuses scores))

/-- Model of detect_fraud (app.py lines 27-34).  `M` abstracts the fitted IsolationForest: it maps the numeric column values to the score_samples vector the fit produces (the fit is unseeded, so `M` is one possible random outcome).  sklearn's input validation raises when the numeric sub-frame has zero rows or zero columns, before any column is written; the spec calls that condition InvalidConfiguration.  On success the input frame is annotated in place; the returned frame is the caller's mutated object. -/
def detect_fraud (M : List (List ℚ) → List ℚ) (df : DataFrame) : Except String DataFrame :=
  if ((numericVals df).head?.getD []).isEmpty then Except.error "InvalidConfiguration"
  else Except.ok (annotate df (M (numericVals df)))

/-- Fixed fit outcome used for concrete inputs: score_samples = [-1/2, -2/5]. -/
def M0 : List (List ℚ) → List ℚ := fun _ => [-(1/2 : ℚ), -(2/5 : ℚ)]

/-- Concrete two-row numeric frame. -/
def df0 : DataFrame := [Col.num "amount" [5, 7]]

/-- Concrete 1000-row score vector 0, 1, ..., 999. -/
def w1000 : List ℚ := List.map (fun n : ℕ => (n : ℚ)) (List.range 1000)

/-- Claimed risk transform, following the spec's words for C2: deviation of the normalized anomaly score from the fixed baseline 0.5, scaled by 100 and rounded to two decimals. -/
def riskScoresClaimed (scores : List ℚ) : List ℚ :=
  (anomalyScores scores).map (fun a => round2 ((a - 1/2) * 100))

/-- Concrete evaluation: the sample score vector is already sorted. -/
theorem sortAsc_pair : sortAsc [-(1/2 : ℚ), -(2/5)] = [-(1/2), -(2/5)] := by
  norm_num [sortAsc, List.insertionSort, List.orderedInsert]

/-- Concrete evaluation of the sklearn offset (10th percentile) on the sample scores. -/
theorem offsetOf_pair : offsetOf [-(1/2 : ℚ), -(2/5)] = -(49/100) := by
  norm_num [offsetOf, percentile, sortAsc_pair, List.getD]

theorem decOf_pair : decOf [-(1/2 : ℚ), -(2/5)] = [-(1/100), 9/100] := by
  norm_num [decOf, offsetOf_pair]

/-- Ties-to-even rounding is the identity on integers. -/
theorem roundHalfEven_intCast (z : ℤ) : roundHalfEven (z : ℚ) = z := by
  unfold roundHalfEven
  rw [Int.floor_intCast]
  norm_num

/-- Model of np.round(x, 2) is the identity on integer values. -/
theorem round2_intCast (z : ℤ) : round2 (z : ℚ) = (z : ℚ) := by
  unfold round2
  rw [show ((z : ℚ) * 100) = ((z * 100 : ℤ) : ℚ) by push_cast ; ring, roundHalfEven_intCast]
  push_cast
  rw [mul_div_assoc]
  norm_num

theorem riskScores_pair : riskScores [-(1/2 : ℚ), -(2/5)] = [1, -9] := by
  have h1 : round2 ((-(1/100) : ℚ) * (-100)) = 1 := by
    rw [show ((-(1/100) : ℚ) * (-100)) = ((1 : ℤ) : ℚ) by norm_num, round2_intCast]
    norm_num
  have h2 : round2 ((9/100 : ℚ) * (-100)) = -9 := by
    rw [show ((9/100 : ℚ) * (-100)) = ((-9 : ℤ) : ℚ) by norm_num, round2_intCast]
    norm_num
  unfold riskScores
  rw [decOf_pair]
  simp only [List.map_cons, List.map_nil]
  rw [h1, h2]

theorem severities_pair : severities [-(1/2 : ℚ), -(2/5)] = [some Severity.Low, none] := by
  norm_num [severities, riskScores_pair, severityCut]

theorem predsOf_pair : predsOf [-(1/2 : ℚ), -(2/5)] = [-1, 1] := by
  norm_num [predsOf, decOf_pair]

theorem statuses_pair : statuses [-(1/2 : ℚ), -(2/5)] = ["🔴 Suspicious", "🟢 Normal"] := by
  norm_num [statuses, predsOf_pair]

theorem severityCut_boundary : severityCut 30 = some Severity.Low ∧
    severityCut (3001/100) = some Severity.Medium ∧
    severityCut 60 = some Severity.Medium ∧ severityCut (6001/100) = some Severity.High := by
  norm_num [severityCut]

/-- getD is independent of the default value at in-range indices. -/
theorem getD_indep {α : Type} : ∀ (l : List α) (i : ℕ) (d d2 : α), i < l.length →
    l.getD i d = l.getD i d2
  | [], _, _, _, h => absurd h (by simp)
  | _ :: _, 0, _, _, _ => rfl
  | _ :: t, i + 1, d, d2, h => getD_indep t i d d2 (by simpa using h)

/-- getD at an in-range index yields a member of the list. -/
theorem getD_mem {α : Type} : ∀ (l : List α) (i : ℕ) (d : α), i < l.length → l.getD i d ∈ l
  | [], _, _, h => absurd h (by simp)
  | a :: _, 0, _, _ => List.mem_cons_self a _
  | a :: t, i + 1, d, h => List.mem_cons_of_mem a (getD_mem t i d (by simpa using h))

/-- getD commutes with map at in-range indices. -/
theorem getD_map_lt {α β : Type} (f : α → β) : ∀ (l : List α) (i : ℕ) (d : β) (d2 : α),
    i < l.length → (l.map f).getD i d = f (l.getD i d2)
  | [], _, _, _, h => absurd h (by simp)
  | _ :: _, 0, _, _, _ => rfl
  | _ :: t, i + 1, d, d2, h => getD_map_lt f t i d d2 (by simpa using h)

/-- Counting the elements below a cut that separates positions k and k+1 of a sorted list. -/
theorem countP_lt_of_sorted : ∀ (l : List ℚ) (k : ℕ) (x : ℚ),
    l.Sorted (fun a b => a ≤ b) → k + 1 < l.length →
    l.getD k 0 < x → x < l.getD (k + 1) 0 →
    l.countP (fun a => decide (a < x)) = k + 1
  | [], _, _, _, h, _, _ => absurd h (by simp)
  | a :: t, 0, x, hs, hlen, h1, h2 => by
    have ha : a < x := by simpa using h1
    have hlt : 0 < t.length := by simpa using hlen
    have hzero : t.countP (fun b => decide (b < x)) = 0 := by
      rw [List.countP_eq_zero]
      intro b hb
      rcases t with _ | ⟨c, t2⟩
      · simp at hlt
      · have hcb : c ≤ b := by
          rcases List.mem_cons.mp hb with rfl | hb2
          · exact le_refl b
          · exact (List.sorted_cons.mp ((List.sorted_cons.mp hs).2)).1 b hb2
        have hxc : x < c := by simpa using h2
        simp only [decide_eq_true_eq]
        exact not_lt.mpr (le_of_lt (lt_of_lt_of_le hxc hcb))
    rw [List.countP_cons]
    simp [ha, hzero]
  | a :: t, k + 1, x, hs, hlen, h1, h2 => by
    have hk1 : k + 1 < t.length := by simpa using hlen
    have ih := countP_lt_of_sorted t k x (List.sorted_cons.mp hs).2 hk1
      (by simpa using h1) (by simpa using h2)
    have hax : a < x := by
      have hmem : t.getD k 0 ∈ t := getD_mem t k 0 (Nat.lt_of_succ_lt hk1)
      have hat : a ≤ t.getD k 0 := (List.sorted_cons.mp hs).1 _ hmem
      exact lt_of_le_of_lt hat (by simpa using h1)
    rw [List.countP_cons]
    simp [hax, ih]

/-- Value of the contamination offset over a 1000-row dataset: the 10th percentile sits nine tenths of the way between order statistics 99 and 100. -/
theorem offsetOf_len1000 (scores : List ℚ) (hn : scores.length = 1000) :
    offsetOf scores =
      (sortAsc scores).getD 99 0 +
        (9/10) * ((sortAsc scores).getD 100 0 - (sortAsc scores).getD 99 0) := by
  have hsl : (sortAsc scores).length = 1000 := by
    rw [sortAsc, List.length_insertionSort, hn]
  unfold offsetOf percentile
  rw [hn]
  have hfloor : ⌊(1/10 : ℚ) * (((1000 : ℕ) : ℚ) - 1)⌋ = 99 := by norm_num
  rw [hfloor]
  have h100 : (sortAsc scores).getD ((99 : ℤ).toNat + 1) ((sortAsc scores).getD (99 : ℤ).toNat 0) =
      (sortAsc scores).getD 100 0 := by
    rw [show ((99 : ℤ).toNat + 1) = 100 from rfl, show ((99 : ℤ).toNat) = 99 from rfl]
    exact getD_indep _ 100 _ 0 (by rw [hsl]; norm_num)
  rw [h100, show ((99 : ℤ).toNat) = 99 from rfl]
  push_cast
  ring_nf

/-- Number of Suspicious labels equals the number of score_samples values strictly below the offset. -/
theorem countSuspicious_eq (scores : List ℚ) :
    (statuses scores).countP (fun st => st == "🔴 Suspicious") =
      scores.countP (fun s => decide (s < offsetOf scores)) := by
  unfold statuses predsOf decOf
  rw [List.countP_map, List.countP_map, List.countP_map]
  apply List.countP_congr
  intro s _
  by_cases h : s - offsetOf scores < 0
  · have hs : s < offsetOf scores := by linarith
    simp [Function.comp, h, hs]
  · have hs : ¬ s < offsetOf scores := by intro hc; exact h (by linarith)
    simp [Function.comp, h, hs]

/-- Status of a row as a function of its own score and the dataset offset. -/
theorem statuses_getD (scores : List ℚ) (i : ℕ) (hi : i < scores.length) :
    (statuses scores).getD i "" =
      (if scores.getD i 0 - offsetOf scores < 0 then "🔴 Suspicious" else "🟢 Normal") := by
  unfold statuses predsOf decOf
  rw [getD_map_lt _ _ i _ (-1 : ℤ) (by simpa using hi),
      getD_map_lt _ _ i _ (0 : ℚ) (by simpa using hi),
      getD_map_lt _ _ i _ (0 : ℚ) hi]
  by_cases h : scores.getD i 0 - offsetOf scores < 0
  · simp [h]
  · simp [h]

/-- Concrete 1000-row score vector is ascending. -/
theorem w1000_sorted : List.Sorted (fun a b => a ≤ b) w1000 :=
  List.Pairwise.map (fun n : ℕ => (n : ℚ))
    (fun a b hab => by show (a : ℚ) ≤ (b : ℚ) ; exact_mod_cast Nat.le_of_lt hab)
    (List.pairwise_lt_range 1000)

theorem sortAsc_w1000 : sortAsc w1000 = w1000 :=
  List.Sorted.insertionSort_eq w1000_sorted

theorem getD_range_lt (n i : ℕ) (h : i < n) : (List.range n).getD i 0 = i := by
  rw [List.getD_eq_getElem?_getD, List.getElem?_range h]
  rfl

theorem w1000_getD (i : ℕ) (h : i < 1000) : w1000.getD i 0 = (i : ℚ) := by
  unfold w1000
  rw [getD_map_lt (fun n : ℕ => (n : ℚ)) (List.range 1000) i 0 0 (by simpa using h)]
  rw [getD_range_lt 1000 i h]

/-- C3: a row's status is "Suspicious" exactly when its normalized anomaly score exceeds the contamination-quantile threshold of the dataset's scores, and over a 1000-row dataset with no tie at the threshold (contamination 0.10) exactly 100 rows are marked Suspicious. -/
theorem C3_status_threshold_and_count (scores : List ℚ)
    (hn : scores.length = 1000)
    (hnotie : (sortAsc scores).getD 99 0 < (sortAsc scores).getD 100 0) :
    (∀ i, i < scores.length →
      ((statuses scores).getD i "" = "🔴 Suspicious" ↔
        thresholdOf scores < (anomalyScores scores).getD i 0)) ∧
    (statuses scores).countP (fun st => st == "🔴 Suspicious") = 100 := by
  constructor
  · intro i hi
    rw [statuses_getD scores i hi]
    unfold anomalyScores
    rw [getD_map_lt (fun s => -s) scores i 0 0 hi]
    unfold thresholdOf
    by_cases h : scores.getD i 0 - offsetOf scores < 0
    · rw [if_pos h]
      constructor
      · intro _
        linarith
      · intro _
        rfl
    · rw [if_neg h]
      constructor
      · intro hfalse
        exact absurd hfalse (by decide)
      · intro hlt
        exfalso
        exact h (by linarith)
  · rw [countSuspicious_eq]
    have hsorted : (sortAsc scores).Sorted (fun a b => a ≤ b) :=
      List.sorted_insertionSort _ scores
    have hperm : List.Perm (sortAsc scores) scores := List.perm_insertionSort _ scores
    have hsl : (sortAsc scores).length = 1000 := by
      rw [sortAsc, List.length_insertionSort, hn]
    have hoff := offsetOf_len1000 scores hn
    have h1 : (sortAsc scores).getD 99 0 < offsetOf scores := by
      rw [hoff]
      linarith
    have h2 : offsetOf scores < (sortAsc scores).getD 100 0 := by
      rw [hoff]
      linarith
    have hcount := countP_lt_of_sorted (sortAsc scores) 99 (offsetOf scores) hsorted
      (by rw [hsl] ; norm_num) h1 h2
    rw [← hperm.countP_eq]
    exact hcount

/-- Witness for C3: the 1000-row score vector 0..999 satisfies the hypotheses, and exactly 100 of its rows are Suspicious. -/
theorem C3_status_threshold_and_count_witness :
    (w1000.length = 1000 ∧ (sortAsc w1000).getD 99 0 < (sortAsc w1000).getD 100 0) ∧
    ((∀ i, i < w1000.length →
      ((statuses w1000).getD i "" = "🔴 Suspicious" ↔
        thresholdOf w1000 < (anomalyScores w1000).getD i 0)) ∧
    (statuses w1000).countP (fun st => st == "🔴 Suspicious") = 100) := by
  have hn : w1000.length = 1000 := by simp [w1000]
  have hnotie : (sortAsc w1000).getD 99 0 < (sortAsc w1000).getD 100 0 := by
    rw [sortAsc_w1000, w1000_getD 99 (by norm_num), w1000_getD 100 (by norm_num)]
    norm_num
  exact ⟨⟨hn, hnotie⟩, C3_status_threshold_and_count w1000 hn hnotie⟩

/-- Severity of row i is the cut applied to its risk score. -/
theorem severities_getD (scores : List ℚ) (i : ℕ) (hi : i < scores.length)
    (d : Option Severity) :
    (severities scores).getD i d = severityCut ((riskScores scores).getD i 0) := by
  have hlen : i < (riskScores scores).length := by
    simpa [riskScores, decOf] using hi
  unfold severities
  rw [getD_map_lt severityCut (riskScores scores) i d 0 hlen]

/-- Null severity characterization of the pd.cut bins. -/
theorem severityCut_eq_none_iff (r : ℚ) : severityCut r = none ↔ (r ≤ -1 ∨ 9999 < r) := by
  unfold severityCut
  split_ifs with h1 h2 h3
  · constructor
    · intro hc
      exact absurd hc (by simp)
    · intro hd
      exfalso
      rcases hd with hd | hd
      · linarith [h1.1]
      · linarith [h1.2]
  · constructor
    · intro hc
      exact absurd hc (by simp)
    · intro hd
      exfalso
      rcases hd with hd | hd
      · linarith [h2.1]
      · linarith [h2.2]
  · constructor
    · intro hc
      exact absurd hc (by simp)
    · intro hd
      exfalso
      rcases hd with hd | hd
      · linarith [h3.1]
      · linarith [h3.2]
  · constructor
    · intro _
      by_cases hr : r ≤ -1
      · exact Or.inl hr
      · push_neg at hr h1 h2 h3
        exact Or.inr (h3 (h2 (h1 hr)))
    · intro _
      rfl

/-- C1 counterexample: row 1 of the concrete run has risk score -9 ≤ 30, yet its severity is null rather than Low, because pd.cut labels nothing at or below the lowest bin edge -1. -/
theorem C1_counterexample :
    (riskScores [-(1/2 : ℚ), -(2/5)]).getD 1 0 ≤ 30 ∧
    (severities [-(1/2 : ℚ), -(2/5)]).getD 1 (some Severity.Low) ≠ some Severity.Low := by
  constructor
  · rw [riskScores_pair]
    norm_num
  · rw [severities_pair]
    simp

/-- C1 (amended): severity follows the fixed cut points on the risk scores the bins actually cover: risk in (-1, 30] gives Low, (30, 60] gives Medium, (60, 9999] gives High; the boundary risks 30.00, 30.01, 60.00, 60.01 classify as Low, Medium, Medium, High. -/
theorem C1_severity_cut_points (scores : List ℚ) (i : ℕ) (hi : i < scores.length) :
    ((-1 < (riskScores scores).getD i 0 ∧ (riskScores scores).getD i 0 ≤ 30) →
      (severities scores).getD i none = some Severity.Low) ∧
    ((30 < (riskScores scores).getD i 0 ∧ (riskScores scores).getD i 0 ≤ 60) →
      (severities scores).getD i none = some Severity.Medium) ∧
    ((60 < (riskScores scores).getD i 0 ∧ (riskScores scores).getD i 0 ≤ 9999) →
      (severities scores).getD i none = some Severity.High) ∧
    severityCut 30 = some Severity.Low ∧ severityCut (3001/100) = some Severity.Medium ∧
    severityCut 60 = some Severity.Medium ∧ severityCut (6001/100) = some Severity.High := by
  refine ⟨?_, ?_, ?_, severityCut_boundary.1, severityCut_boundary.2.1,
    severityCut_boundary.2.2.1, severityCut_boundary.2.2.2⟩
  · intro hr
    rw [severities_getD scores i hi none]
    unfold severityCut
    rw [if_pos ⟨hr.1, hr.2⟩]
  · intro hr
    rw [severities_getD scores i hi none]
    unfold severityCut
    rw [if_neg (by intro hc ; linarith [hc.2, hr.1]), if_pos ⟨hr.1, hr.2⟩]
  · intro hr
    rw [severities_getD scores i hi none]
    unfold severityCut
    rw [if_neg (by intro hc ; linarith [hc.2, hr.1]),
      if_neg (by intro hc ; linarith [hc.2, hr.1]), if_pos ⟨hr.1, hr.2⟩]

/-- Witness for C1 (amended): row 0 of the concrete run has risk 1 in (-1, 30] and severity Low. -/
theorem C1_severity_cut_points_witness :
    (severities [-(1/2 : ℚ), -(2/5)]).getD 0 none = some Severity.Low :=
  (C1_severity_cut_points [-(1/2 : ℚ), -(2/5)] 0 (by norm_num)).1
    (by rw [riskScores_pair] ; norm_num)

theorem riskScoresClaimed_pair : riskScoresClaimed [-(1/2 : ℚ), -(2/5)] = [0, -10] := by
  have ha : anomalyScores [-(1/2 : ℚ), -(2/5)] = [1/2, 2/5] := by
    norm_num [anomalyScores]
  have h1 : round2 (((1/2 : ℚ) - 1/2) * 100) = 0 := by
    rw [show (((1/2 : ℚ) - 1/2) * 100) = ((0 : ℤ) : ℚ) by norm_num, round2_intCast]
    norm_num
  have h2 : round2 (((2/5 : ℚ) - 1/2) * 100) = -10 := by
    rw [show (((2/5 : ℚ) - 1/2) * 100) = ((-10 : ℤ) : ℚ) by norm_num, round2_intCast]
    norm_num
  unfold riskScoresClaimed
  rw [ha]
  simp only [List.map_cons, List.map_nil]
  rw [h1, h2]

/-- C2 counterexample: on the concrete run the code's risk scores are [1, -9], but the spec's fixed-0.5-baseline formula gives [0, -10]; the offset the code subtracts is the contamination quantile -0.49, not -0.5. -/
theorem C2_counterexample :
    riskScores [-(1/2 : ℚ), -(2/5)] ≠ riskScoresClaimed [-(1/2 : ℚ), -(2/5)] := by
  rw [riskScores_pair, riskScoresClaimed_pair]
  intro h
  rw [List.cons_eq_cons] at h
  exact absurd h.1 (by norm_num)

/-- C2 (amended): the displayed risk equals round(100 * (anomaly score - threshold), 2) where the baseline is the dataset's contamination-quantile threshold (-offset_), not the fixed constant 0.5. -/
theorem C2_risk_transform (scores : List ℚ) :
    riskScores scores =
      (anomalyScores scores).map (fun a => round2 ((a - thresholdOf scores) * 100)) := by
  unfold riskScores decOf anomalyScores
  rw [List.map_map, List.map_map]
  apply List.map_congr_left
  intro s _
  simp only [Function.comp]
  congr 1
  unfold thresholdOf
  ring

/-- C9: severity is null exactly when the risk score falls outside (-1, 9999]; risk scores at or below -1 occur for ordinary rows, e.g. row 1 of the concrete run has risk -9, Normal status, and null severity. -/
theorem C9_severity_gaps (scores : List ℚ) (i : ℕ) (hi : i < scores.length) :
    ((severities scores).getD i (some Severity.Low) = none ↔
      ((riskScores scores).getD i 0 ≤ -1 ∨ 9999 < (riskScores scores).getD i 0)) ∧
    (riskScores [-(1/2 : ℚ), -(2/5)]).getD 1 0 < -1 ∧
    (statuses [-(1/2 : ℚ), -(2/5)]).getD 1 "" = "🟢 Normal" ∧
    (severities [-(1/2 : ℚ), -(2/5)]).getD 1 (some Severity.Low) = none := by
  refine ⟨?_, ?_, ?_, ?_⟩
  · rw [severities_getD scores i hi (some Severity.Low)]
    exact severityCut_eq_none_iff _
  · rw [riskScores_pair]
    norm_num
  · rw [statuses_pair]
    rfl
  · rw [severities_pair]
    rfl

/-- Witness for C9 at the concrete run, row 1. -/
theorem C9_severity_gaps_witness :
    (severities [-(1/2 : ℚ), -(2/5)]).getD 1 (some Severity.Low) = none ↔
      ((riskScores [-(1/2 : ℚ), -(2/5)]).getD 1 0 ≤ -1 ∨
        9999 < (riskScores [-(1/2 : ℚ), -(2/5)]).getD 1 0) :=
  (C9_severity_gaps [-(1/2 : ℚ), -(2/5)] 1 (by norm_num)).1

/-- Counting both labels in a two-label string list accounts for every element. -/
theorem countP_two_labels : ∀ (l : List String),
    (∀ st ∈ l, st = "🔴 Suspicious" ∨ st = "🟢 Normal") →
    l.countP (fun st => st == "🔴 Suspicious") + l.countP (fun st => st == "🟢 Normal") = l.length
  | [], _ => rfl
  | a :: t, h => by
    have ht := countP_two_labels t (fun st hst => h st (List.mem_cons_of_mem a hst))
    rcases h a (List.mem_cons_self a t) with ha | ha
    · subst ha
      rw [List.countP_cons, List.countP_cons]
      have e1 : (("🔴 Suspicious" == "🔴 Suspicious") = true) := by decide
      have e2 : (("🔴 Suspicious" == "🟢 Normal") = false) := by decide
      rw [if_pos e1, if_neg (by rw [e2] ; exact Bool.false_ne_true)]
      simp only [List.length_cons]
      omega
    · subst ha
      rw [List.countP_cons, List.countP_cons]
      have e1 : (("🟢 Normal" == "🔴 Suspicious") = false) := by decide
      have e2 : (("🟢 Normal" == "🟢 Normal") = true) := by decide
      rw [if_neg (by rw [e1] ; exact Bool.false_ne_true), if_pos e2]
      simp only [List.length_cons]
      omega

/-- C10: every row receives exactly one of the two emoji-labelled status strings, and the Suspicious count plus the Normal count equals the number of rows. -/
theorem C10_status_total (scores : List ℚ) :
    (statuses scores).length = scores.length ∧
    (∀ i, i < (statuses scores).length →
      ((statuses scores).getD i "" = "🔴 Suspicious" ∨
        (statuses scores).getD i "" = "🟢 Normal")) ∧
    (statuses scores).countP (fun st => st == "🔴 Suspicious") +
      (statuses scores).countP (fun st => st == "🟢 Normal") = scores.length := by
  have hlen : (statuses scores).length = scores.length := by
    simp [statuses, predsOf, decOf]
  refine ⟨hlen, ?_, ?_⟩
  · intro i hi
    have hi2 : i < scores.length := by rw [← hlen] ; exact hi
    rw [statuses_getD scores i hi2]
    by_cases h : scores.getD i 0 - offsetOf scores < 0
    · left
      rw [if_pos h]
    · right
      rw [if_neg h]
  · have hmem : ∀ st ∈ statuses scores, st = "🔴 Suspicious" ∨ st = "🟢 Normal" := by
      intro st hst
      unfold statuses at hst
      rcases List.mem_map.mp hst with ⟨p, _, rfl⟩
      by_cases hp : p = -1
      · left
        rw [if_pos hp]
      · right
        rw [if_neg hp]
    rw [countP_two_labels (statuses scores) hmem, hlen]

/-- Witness for C10 at the concrete run: row 1 carries one of the two labels. -/
theorem C10_status_total_witness :
    (statuses [-(1/2 : ℚ), -(2/5)]).getD 1 "" = "🔴 Suspicious" ∨
      (statuses [-(1/2 : ℚ), -(2/5)]).getD 1 "" = "🟢 Normal" :=
  (C10_status_total [-(1/2 : ℚ), -(2/5)]).2.1 1
    (by rw [statuses_pair] ; norm_num)

/-- C4: the fit is unseeded (IsolationForest is constructed with no random_state), so the annotated output depends on which score vector the random fit returns; two possible fit outcomes of the same dataset give different statuses and risk scores. -/
theorem C4_unseeded_fit_dependence :
    statuses [-(1/2 : ℚ), -(2/5)] ≠ statuses [-(2/5 : ℚ), -(1/2)] ∧
    riskScores [-(1/2 : ℚ), -(2/5)] ≠ riskScores [-(2/5 : ℚ), -(1/2)] := by
  have hsort : sortAsc [-(2/5 : ℚ), -(1/2)] = [-(1/2), -(2/5)] := by
    norm_num [sortAsc, List.insertionSort, List.orderedInsert]
  have hoff : offsetOf [-(2/5 : ℚ), -(1/2)] = -(49/100) := by
    norm_num [offsetOf, percentile, hsort, List.getD]
  have hdec : decOf [-(2/5 : ℚ), -(1/2)] = [9/100, -(1/100)] := by
    norm_num [decOf, hoff]
  have hpreds : predsOf [-(2/5 : ℚ), -(1/2)] = [1, -1] := by
    norm_num [predsOf, hdec]
  have hstat : statuses [-(2/5 : ℚ), -(1/2)] = ["🟢 Normal", "🔴 Suspicious"] := by
    norm_num [statuses, hpreds]
  have hrisk : riskScores [-(2/5 : ℚ), -(1/2)] = [-9, 1] := by
    have h1 : round2 ((9/100 : ℚ) * (-100)) = -9 := by
      rw [show ((9/100 : ℚ) * (-100)) = ((-9 : ℤ) : ℚ) by norm_num, round2_intCast]
      norm_num
    have h2 : round2 ((-(1/100) : ℚ) * (-100)) = 1 := by
      rw [show ((-(1/100) : ℚ) * (-100)) = ((1 : ℤ) : ℚ) by norm_num, round2_intCast]
      norm_num
    unfold riskScores
    rw [hdec]
    simp only [List.map_cons, List.map_nil]
    rw [h1, h2]
  constructor
  · rw [statuses_pair, hstat]
    intro h
    rw [List.cons_eq_cons] at h
    exact absurd h.1 (by decide)
  · rw [riskScores_pair, hrisk]
    intro h
    rw [List.cons_eq_cons] at h
    exact absurd h.1 (by norm_num)

/-- setCol with a label not yet present appends the column on the right. -/
theorem setCol_fresh (df : DataFrame) (c : Col) (h : ∀ c0 ∈ df, colName c0 ≠ colName c) :
    setCol df c = df ++ [c] := by
  unfold setCol
  rw [if_neg]
  intro hany
  rcases List.any_eq_true.mp hany with ⟨c0, hc0, hbeq⟩
  exact h c0 hc0 (by simpa using hbeq)

/-- Writing the three annotation columns on a frame free of their labels appends them in order. -/
theorem annotate_fresh (df : DataFrame) (scores : List ℚ)
    (h : ∀ c ∈ df, colName c ≠ "Risk Score" ∧ colName c ≠ "Severity" ∧ colName c ≠ "Status") :
    annotate df scores = df ++ [Col.num "Risk Score" (riskScores scores),
      Col.sev "Severity" (severities scores), Col.str "Status" (statuses scores)] := by
  have h1 : setCol df (Col.num "Risk Score" (riskScores scores)) =
      df ++ [Col.num "Risk Score" (riskScores scores)] :=
    setCol_fresh df _ (fun c0 hc0 => (h c0 hc0).1)
  have h2 : ∀ c0 ∈ df ++ [Col.num "Risk Score" (riskScores scores)],
      colName c0 ≠ colName (Col.sev "Severity" (severities scores)) := by
    intro c0 hc0
    rcases List.mem_append.mp hc0 with hin | hin
    · exact (h c0 hin).2.1
    · rw [List.mem_singleton.mp hin]
      intro hc
      rw [show colName (Col.num "Risk Score" (riskScores scores)) = "Risk Score" from rfl,
        show colName (Col.sev "Severity" (severities scores)) = "Severity" from rfl] at hc
      exact absurd hc (by decide)
  have h3 : ∀ c0 ∈ (df ++ [Col.num "Risk Score" (riskScores scores)]) ++
      [Col.sev "Severity" (severities scores)],
      colName c0 ≠ colName (Col.str "Status" (statuses scores)) := by
    intro c0 hc0
    rcases List.mem_append.mp hc0 with hin | hin
    · rcases List.mem_append.mp hin with hin2 | hin2
      · exact (h c0 hin2).2.2
      · rw [List.mem_singleton.mp hin2]
        intro hc
        rw [show colName (Col.num "Risk Score" (riskScores scores)) = "Risk Score" from rfl,
          show colName (Col.str "Status" (statuses scores)) = "Status" from rfl] at hc
        exact absurd hc (by decide)
    · rw [List.mem_singleton.mp hin]
      intro hc
      rw [show colName (Col.sev "Severity" (severities scores)) = "Severity" from rfl,
        show colName (Col.str "Status" (statuses scores)) = "Status" from rfl] at hc
      exact absurd hc (by decide)
  unfold annotate
  rw [h1, setCol_fresh _ _ h2, setCol_fresh _ _ h3, List.append_assoc, List.append_assoc]
  rfl

/-- C5 counterexample: the caller's frame after the call is not the frame passed in: detect_fraud added three columns in place. -/
theorem C5_counterexample : detect_fraud M0 df0 ≠ Except.ok df0 := by
  have hfresh : ∀ c ∈ df0, colName c ≠ "Risk Score" ∧ colName c ≠ "Severity" ∧
      colName c ≠ "Status" := by
    intro c hc
    rw [List.mem_singleton.mp hc]
    exact ⟨by decide, by decide, by decide⟩
  have heq : detect_fraud M0 df0 = Except.ok (df0 ++
      [Col.num "Risk Score" (riskScores (M0 (numericVals df0))),
       Col.sev "Severity" (severities (M0 (numericVals df0))),
       Col.str "Status" (statuses (M0 (numericVals df0)))]) := by
    unfold detect_fraud
    rw [if_neg (by simp [numericVals, df0]), annotate_fresh df0 _ hfresh]
  rw [heq]
  intro hcontra
  have hframe := Except.ok.inj hcontra
  have hlen := congrArg List.length hframe
  simp [df0] at hlen

/-- C5 (amended): detect_fraud mutates the caller's frame in place: on a successful run over a frame free of the three annotation labels, the caller's object afterwards holds its original columns, values untouched, followed by the new Risk Score, Severity and Status columns. -/
theorem C5_frame_mutated (M : List (List ℚ) → List ℚ) (df : DataFrame)
    (hok : ¬ ((numericVals df).head?.getD []).isEmpty = true)
    (h : ∀ c ∈ df, colName c ≠ "Risk Score" ∧ colName c ≠ "Severity" ∧ colName c ≠ "Status") :
    detect_fraud M df = Except.ok (df ++
      [Col.num "Risk Score" (riskScores (M (numericVals df))),
       Col.sev "Severity" (severities (M (numericVals df))),
       Col.str "Status" (statuses (M (numericVals df)))]) := by
  unfold detect_fraud
  rw [if_neg hok, annotate_fresh df _ h]

/-- Witness for C5 (amended) at the concrete frame and fit outcome. -/
theorem C5_frame_mutated_witness :
    detect_fraud M0 df0 = Except.ok (df0 ++
      [Col.num "Risk Score" [1, -9],
       Col.sev "Severity" [some Severity.Low, none],
       Col.str "Status" ["🔴 Suspicious", "🟢 Normal"]]) := by
  rw [C5_frame_mutated M0 df0 (by simp [numericVals, df0]) (by
    intro c hc
    rw [List.mem_singleton.mp hc]
    exact ⟨by decide, by decide, by decide⟩)]
  have hM : M0 (numericVals df0) = [-(1/2 : ℚ), -(2/5)] := rfl
  rw [hM, riskScores_pair, severities_pair, statuses_pair]

/-- C7: a well-formed frame with zero rows or no numeric column makes detect_fraud fail immediately with InvalidConfiguration; no annotated output is produced. -/
theorem C7_invalid_configuration (M : List (List ℚ) → List ℚ) (df : DataFrame)
    (hwf : wellFormed df) (h : numRows df = 0 ∨ (∀ c ∈ df, isNum c = false)) :
    detect_fraud M df = Except.error "InvalidConfiguration" ∧
    ∀ out, detect_fraud M df ≠ Except.ok out := by
  have hguard : ((numericVals df).head?.getD []).isEmpty = true := by
    rcases h with h0 | hnum
    · cases hnv : numericVals df with
      | nil => rfl
      | cons v t =>
        have hv : v ∈ numericVals df := by
          rw [hnv]
          exact List.mem_cons_self v t
        rcases List.mem_filterMap.mp hv with ⟨c, hc, hcv⟩
        have hlen0 : colLen c = 0 := by rw [hwf c hc, h0]
        cases c with
        | num n vals =>
          have hvv : vals = v := by simpa using hcv
          have hnil : v = [] := by
            apply List.length_eq_zero.mp
            rw [← hvv]
            simpa [colLen] using hlen0
          rw [hnil]
          rfl
        | str n vals => simp at hcv
        | sev n vals => simp at hcv
    · have hempty : numericVals df = [] := by
        unfold numericVals
        rw [List.filterMap_eq_nil_iff]
        intro c hc
        have hn := hnum c hc
        cases c with
        | num n vals => simp [isNum] at hn
        | str n vals => rfl
        | sev n vals => rfl
      rw [hempty]
      rfl
  constructor
  · unfold detect_fraud
    rw [if_pos hguard]
  · intro out hcontra
    unfold detect_fraud at hcontra
    rw [if_pos hguard] at hcontra
    exact absurd hcontra (by simp)

/-- Witness for C7 on a one-column, one-row frame with no numeric column. -/
theorem C7_invalid_configuration_witness :
    detect_fraud M0 [Col.str "name" ["a"]] = Except.error "InvalidConfiguration" :=
  (C7_invalid_configuration M0 [Col.str "name" ["a"]]
    (by
      intro c hc
      rw [List.mem_singleton.mp hc]
      rfl)
    (Or.inr (by
      intro c hc
      rw [List.mem_singleton.mp hc]
      rfl))).1

/-- find? over an overwrite-map hits the replacement when some column carries the label. -/
theorem find?_overwrite : ∀ (df : DataFrame) (c : Col),
    df.any (fun c0 => colName c0 == colName c) = true →
    (df.map (fun c0 => if colName c0 == colName c then c else c0)).find?
      (fun c0 => colName c0 == colName c) = some c
  | [], c, h => by simp at h
  | c0 :: t, c, h => by
    by_cases h0 : (colName c0 == colName c) = true
    · simp only [List.map_cons, if_pos h0]
      simp only [List.find?_cons, beq_self_eq_true]
    · have hf : (colName c0 == colName c) = false := by simpa using h0
      simp only [List.map_cons, if_neg h0]
      simp only [List.find?_cons, hf]
      apply find?_overwrite t c
      have hh : ((colName c0 == colName c) || t.any (fun c0 => colName c0 == colName c)) = true := by
        simpa [List.any_cons] using h
      rcases Bool.or_eq_true_iff.mp hh with hl | hr
      · exact absurd hl h0
      · exact hr

/-- find? for a different label is unchanged by the overwrite-map. -/
theorem find?_overwrite_other : ∀ (df : DataFrame) (c : Col) (n : String), n ≠ colName c →
    (df.map (fun c0 => if colName c0 == colName c then c else c0)).find?
      (fun c0 => colName c0 == n) = df.find? (fun c0 => colName c0 == n)
  | [], _, _, _ => rfl
  | c0 :: t, c, n, hne => by
    by_cases h0 : (colName c0 == colName c) = true
    · have hc0c : colName c0 = colName c := by simpa using h0
      have hcn : (colName c == n) = false :=
        beq_eq_false_iff_ne.mpr (fun hcn => hne hcn.symm)
      have hc0n : (colName c0 == n) = false := by
        rw [hc0c]
        exact hcn
      simp only [List.map_cons, if_pos h0]
      simp only [List.find?_cons, hcn, hc0n]
      exact find?_overwrite_other t c n hne
    · by_cases hp : (colName c0 == n) = true
      · simp only [List.map_cons, if_neg h0]
        simp only [List.find?_cons, hp]
      · have hpf : (colName c0 == n) = false := by simpa using hp
        simp only [List.map_cons, if_neg h0]
        simp only [List.find?_cons, hpf]
        exact find?_overwrite_other t c n hne

/-- getCol after setCol with the column's own label returns that column. -/
theorem getCol_setCol_self (df : DataFrame) (c : Col) :
    getCol (setCol df c) (colName c) = some c := by
  unfold setCol getCol
  by_cases hany : df.any (fun c0 => colName c0 == colName c) = true
  · rw [if_pos hany]
    exact find?_overwrite df c hany
  · rw [if_neg hany]
    have hnone : df.find? (fun c0 => colName c0 == colName c) = none := by
      rw [List.find?_eq_none]
      intro x hx hbeq
      exact hany (List.any_eq_true.mpr ⟨x, hx, hbeq⟩)
    rw [List.find?_append, hnone]
    simp only [List.find?_cons, beq_self_eq_true, Option.none_or]

/-- getCol for a different label is unchanged by setCol. -/
theorem getCol_setCol_other (df : DataFrame) (c : Col) (n : String) (hne : n ≠ colName c) :
    getCol (setCol df c) n = getCol df n := by
  unfold setCol getCol
  by_cases hany : df.any (fun c0 => colName c0 == colName c) = true
  · rw [if_pos hany]
    exact find?_overwrite_other df c n hne
  · rw [if_neg hany]
    have hcn : (colName c == n) = false :=
      beq_eq_false_iff_ne.mpr (fun hcn => hne hcn.symm)
    rw [List.find?_append]
    simp only [List.find?_cons, hcn, List.find?_nil, Option.or_none]

/-- Risk Score column of an annotated frame. -/
theorem getCol_annotate_risk (df : DataFrame) (scores : List ℚ) :
    getCol (annotate df scores) "Risk Score" =
      some (Col.num "Risk Score" (riskScores scores)) := by
  unfold annotate
  rw [getCol_setCol_other _ _ _ (show ("Risk Score" : String) ≠ "Status" by decide),
    getCol_setCol_other _ _ _ (show ("Risk Score" : String) ≠ "Severity" by decide)]
  exact getCol_setCol_self df (Col.num "Risk Score" (riskScores scores))

/-- Severity column of an annotated frame. -/
theorem getCol_annotate_sev (df : DataFrame) (scores : List ℚ) :
    getCol (annotate df scores) "Severity" =
      some (Col.sev "Severity" (severities scores)) := by
  unfold annotate
  rw [getCol_setCol_other _ _ _ (show ("Severity" : String) ≠ "Status" by decide)]
  exact getCol_setCol_self _ (Col.sev "Severity" (severities scores))

/-- Status column of an annotated frame. -/
theorem getCol_annotate_status (df : DataFrame) (scores : List ℚ) :
    getCol (annotate df scores) "Status" =
      some (Col.str "Status" (statuses scores)) :=
  getCol_setCol_self _ (Col.str "Status" (statuses scores))

/-- C8: two frames that agree on their numeric columns, scored with the same fit outcome, receive identical Risk Score, Severity and Status columns. -/
theorem C8_nonnumeric_ignored (M : List (List ℚ) → List ℚ) (df1 df2 : DataFrame)
    (h : numericVals df1 = numericVals df2) (r1 r2 : DataFrame)
    (h1 : detect_fraud M df1 = Except.ok r1) (h2 : detect_fraud M df2 = Except.ok r2) :
    getCol r1 "Risk Score" = getCol r2 "Risk Score" ∧
    getCol r1 "Severity" = getCol r2 "Severity" ∧
    getCol r1 "Status" = getCol r2 "Status" := by
  unfold detect_fraud at h1 h2
  by_cases hg1 : ((numericVals df1).head?.getD []).isEmpty = true
  · rw [if_pos hg1] at h1
    exact absurd h1 (by simp)
  · rw [if_neg hg1] at h1
    have hg2 : ¬ ((numericVals df2).head?.getD []).isEmpty = true := by
      rw [← h]
      exact hg1
    rw [if_neg hg2] at h2
    have e1 : r1 = annotate df1 (M (numericVals df1)) := (Except.ok.inj h1).symm
    have e2 : r2 = annotate df2 (M (numericVals df2)) := (Except.ok.inj h2).symm
    rw [e1, e2, h]
    exact ⟨by rw [getCol_annotate_risk, getCol_annotate_risk],
      by rw [getCol_annotate_sev, getCol_annotate_sev],
      by rw [getCol_annotate_status, getCol_annotate_status]⟩

/-- Witness for C8: two frames differing only in a string column get the same annotation columns. -/
theorem C8_nonnumeric_ignored_witness :
    getCol (annotate [Col.num "amount" [5, 7], Col.str "note" ["a", "b"]]
        (M0 (numericVals [Col.num "amount" [5, 7], Col.str "note" ["a", "b"]]))) "Risk Score" =
      getCol (annotate [Col.num "amount" [5, 7], Col.str "note" ["x", "y"]]
        (M0 (numericVals [Col.num "amount" [5, 7], Col.str "note" ["x", "y"]]))) "Risk Score" ∧
    getCol (annotate [Col.num "amount" [5, 7], Col.str "note" ["a", "b"]]
        (M0 (numericVals [Col.num "amount" [5, 7], Col.str "note" ["a", "b"]]))) "Severity" =
      getCol (annotate [Col.num "amount" [5, 7], Col.str "note" ["x", "y"]]
        (M0 (numericVals [Col.num "amount" [5, 7], Col.str "note" ["x", "y"]]))) "Severity" ∧
    getCol (annotate [Col.num "amount" [5, 7], Col.str "note" ["a", "b"]]
        (M0 (numericVals [Col.num "amount" [5, 7], Col.str "note" ["a", "b"]]))) "Status" =
      getCol (annotate [Col.num "amount" [5, 7], Col.str "note" ["x", "y"]]
        (M0 (numericVals [Col.num "amount" [5, 7], Col.str "note" ["x", "y"]]))) "Status" :=
  C8_nonnumeric_ignored M0
    [Col.num "amount" [5, 7], Col.str "note" ["a", "b"]]
    [Col.num "amount" [5, 7], Col.str "note" ["x", "y"]]
    (by simp [numericVals]) _ _
    (by
      unfold detect_fraud
      rw [if_neg (by simp [numericVals])])
    (by
      unfold detect_fraud
      rw [if_neg (by simp [numericVals])])
